import Mathlib

/-!
Verification development for the YouTube transcript summarizer script
(`yt_summarizer-GROQ-llama-3.1-8b-instant.py`).

The script is embedded shallowly:

* pure string manipulation (`extract_video_id`, the transcript join, the
  request construction) becomes pure Lean functions on `String`;
* Python's `str.strip` and `str.lower` (applied to ASCII data throughout the
  script) are embedded as `pyStrip` and `pyLower` over the character list;
* the filesystem becomes an explicit `FS` state (directory set plus an
  association list from path to file content); `open(..., "w")` truncates,
  `open(..., "a")` appends and creates the file when absent;
* the two external HTTP collaborators (the transcript service and the Groq
  chat-completions endpoint) are opaque function parameters;
* exceptional control flow (`raise_for_status`, indexing an empty `choices`
  list, transcript-fetch failures) becomes `Except`;
* the interactive loop of `main` consumes an explicit finite list of input
  lines and records the chat requests it issues, the lines it prints, and
  the reason it stopped.
-/

/-- Python `str.strip` on a character list: drop leading and trailing
whitespace characters. -/
def pyStripList (l : List Char) : List Char :=
  ((l.dropWhile Char.isWhitespace).reverse.dropWhile Char.isWhitespace).reverse

/-- Python `str.strip` (the script only ever strips ASCII input lines and
model replies). -/
def pyStrip (s : String) : String :=
  String.mk (pyStripList s.data)

/-- Python `str.lower`, restricted to the ASCII lowering the script relies
on for its `exit`/`quit` comparison. -/
def pyLower (s : String) : String :=
  String.mk (s.data.map Char.toLower)

/-- One attempt of the regex `v=([^&]+)` at the head of the character list:
it matches when the list starts with `v`, `=` and a character other than
`&`; the captured group is the maximal following run of non-`&`
characters. -/
def vMatchAt : List Char → Option (List Char)
  | a :: b :: d :: t =>
    if a = 'v' ∧ b = '=' ∧ d ≠ '&' then
      some ((d :: t).takeWhile (fun c => c != '&'))
    else
      none
  | _ => none

/-- `re.search` for the pattern `v=([^&]+)`: try a match at each position
from the left and return the first captured group. -/
def reSearchV : List Char → Option (List Char)
  | [] => none
  | c :: rest =>
    match vMatchAt (c :: rest) with
    | some w => some w
    | none => reSearchV rest

/-- Embedding of `extract_video_id` (source lines 60-62):
`re.search(r'v=([^&]+)', youtube_url)` and `group(1)` on success, `None`
otherwise. -/
def extract_video_id (youtube_url : String) : Option String :=
  (reSearchV youtube_url.data).map String.mk

/-- The regex can match at position `i` of the character list: the list has
`v`, `=` and then some character other than `&` at that offset. -/
def vMatchPos (l : List Char) (i : Nat) : Prop :=
  ∃ d t, l.drop i = 'v' :: '=' :: d :: t ∧ d ≠ '&'

/-- A transcript segment as returned by `YouTubeTranscriptApi.get_transcript`.
Each segment dictionary also carries `start` and `duration` timing fields,
but the script reads only `text`, so only that field is modelled. -/
structure Segment where
  text : String
deriving DecidableEq

/-- Python `sep.join(list)`: the elements concatenated with `sep` between
each pair of consecutive elements. -/
def joinWith (sep : String) : List String → String
  | [] => ""
  | [x] => x
  | x :: y :: rest => x ++ sep ++ joinWith sep (y :: rest)

/-- Embedding of `get_transcript` (source lines 65-68). The external
`YouTubeTranscriptApi` is the opaque parameter `transcriptSvc`; a raised
exception on the Python side is an `Except.error`. On success the segment
texts are joined with a single space: `' '.join([t['text'] for t in transcript])`. -/
def get_transcript (transcriptSvc : String → Except String (List Segment))
    (video_id : String) : Except String String :=
  (transcriptSvc video_id).map (fun transcript => joinWith " " (transcript.map (fun t => t.text)))

/-- The filesystem state: the set of directories that exist and an
association list from file path to file content. -/
structure FS where
  dirs : List String
  files : List (String × String)
deriving DecidableEq

/-- Content of the file at path `p`, when it exists. -/
def readFile (fs : FS) (p : String) : Option String :=
  fs.files.lookup p

/-- Python `open(p, "w")` followed by a single write: create or truncate
the file at `p` and set its content. -/
def writeFileFS (fs : FS) (p content : String) : FS :=
  { fs with files := (p, content) :: fs.files.filter (fun e => e.1 != p) }

/-- Python `open(p, "a")` followed by a single write: create the file when
absent, then append to its content. -/
def appendFileFS (fs : FS) (p content : String) : FS :=
  writeFileFS fs p ((readFile fs p).getD "" ++ content)

/-- Embedding of `create_directory` (source lines 71-73):
`if not os.path.exists(video_id): os.makedirs(video_id)`. -/
def create_directory (video_id : String) (fs : FS) : FS :=
  if fs.dirs.contains video_id then fs else { fs with dirs := video_id :: fs.dirs }

/-- The transcript file path `os.path.join(video_id, f"{video_id}_transcript.txt")`. -/
def txtPath (video_id : String) : String :=
  video_id ++ "/" ++ (video_id ++ "_transcript.txt")

/-- The conversation file path `os.path.join(video_id, f"{video_id}.md")`. -/
def mdPath (video_id : String) : String :=
  video_id ++ "/" ++ (video_id ++ ".md")

/-- Embedding of `save_transcript_as_text` (source lines 76-80): ensure the
directory exists, then overwrite `<id>/<id>_transcript.txt` with the
transcript. -/
def save_transcript_as_text (transcript_text video_id : String) (fs : FS) : FS :=
  writeFileFS (create_directory video_id fs) (txtPath video_id) transcript_text

/-- Embedding of `save_summary_as_markdown` (source lines 103-107): ensure
the directory exists, then append the turn block
`f"**User:** {user_input}\n\n**Assistant:** {summary}\n\n"` to `<id>/<id>.md`. -/
def save_summary_as_markdown (user_input summary video_id : String) (fs : FS) : FS :=
  appendFileFS (create_directory video_id fs) (mdPath video_id)
    ("**User:** " ++ user_input ++ "\n\n**Assistant:** " ++ summary ++ "\n\n")

/-- Source line 51: the default prompt used when the user supplies none. -/
def DEFAULT_PROMPT : String :=
  "Provide a 3 paragraph summary of the following video transcript with styled markdown:"

/-- Source line 54: the fixed chat-completions model identifier. -/
def MODEL : String := "llama-3.1-8b-instant"

/-- One message of the chat-completions request body. -/
structure ChatMessage where
  role : String
  content : String
deriving DecidableEq

/-- The JSON body posted to the chat-completions endpoint. The
`Authorization: Bearer <key>` header carries no information relevant to the
claims and is not modelled. -/
structure ChatRequest where
  messages : List ChatMessage
  model : String
deriving DecidableEq

/-- One element of the `choices` array of the response body. -/
structure Choice where
  message : ChatMessage
deriving DecidableEq

/-- The chat service's answer: HTTP status code and parsed `choices`
array. A response body without a well-formed `choices` entry is modelled by
an empty `choices` list. -/
structure HttpResponse where
  status : Nat
  choices : List Choice
deriving DecidableEq

/-- Python truthiness in `user_prompt if user_prompt else DEFAULT_PROMPT`
(source line 92): both `None` and the empty string select the default. -/
def promptOrDefault : Option String → String
  | some p => if p = "" then DEFAULT_PROMPT else p
  | none => DEFAULT_PROMPT

/-- The request body built by `get_summary` (source lines 88-96): a single
user message whose content is the prompt, two newlines, then the
transcript; the fixed model identifier. -/
def get_summary_request (transcript_text : String) (user_prompt : Option String) : ChatRequest :=
  { messages := [{ role := "user",
                   content := promptOrDefault user_prompt ++ "\n\n" ++ transcript_text }],
    model := MODEL }

/-- Embedding of `get_summary` (source lines 83-100). The chat endpoint is
the opaque parameter `svc`. `response.raise_for_status()` raises exactly on
a 4xx or 5xx status; `response.json()["choices"][0]` raises when `choices`
is empty; otherwise the first choice's message content is returned with
surrounding whitespace stripped. -/
def get_summary (svc : ChatRequest → HttpResponse) (transcript_text : String)
    (user_prompt : Option String) : Except String String :=
  let response := svc (get_summary_request transcript_text user_prompt)
  if 400 ≤ response.status ∧ response.status < 600 then
    Except.error ("HTTP status " ++ toString response.status)
  else
    match response.choices with
    | [] => Except.error "no choices in response"
    | choice :: _ => Except.ok (pyStrip choice.message.content)

/-- Why the interactive loop stopped. -/
inductive ExitPath where
  | invalidUrl
  | fetchError
  | sentinelExit
  | chatError
  | inputExhausted
deriving DecidableEq

/-- Observable result of the interactive loop: final filesystem, the chat
requests issued in order, the lines printed, and the exit reason. -/
structure LoopResult where
  fs : FS
  calls : List ChatRequest
  out : List String
  exit : ExitPath
deriving DecidableEq

/-- Embedding of the `while True` loop of `main` (source lines 134-152).
Standard input is the explicit list of lines; each line is stripped, the
sentinel check `user_input.lower() in ["exit", "quit"]` breaks out, and
otherwise `get_summary(transcript_text, user_input)` is called: on success
the exchange is printed and appended to the markdown file, on an exception
the loop prints the error and the run ends. Running out of input lines is
modelled by the `inputExhausted` exit. -/
def chat_loop (svc : ChatRequest → HttpResponse) (transcript_text video_id : String) :
    List String → FS → LoopResult
  | [], fs => { fs := fs, calls := [], out := [], exit := .inputExhausted }
  | line :: rest, fs =>
    let user_input := pyStrip line
    if ["exit", "quit"].contains (pyLower user_input) then
      { fs := fs, calls := [], out := ["Goodbye!"], exit := .sentinelExit }
    else
      let req := get_summary_request transcript_text (some user_input)
      match get_summary svc transcript_text (some user_input) with
      | Except.error e =>
        { fs := fs, calls := [req],
          out := ["Error generating summary: " ++ e], exit := .chatError }
      | Except.ok summary =>
        let fs1 := save_summary_as_markdown user_input summary video_id fs
        let r := chat_loop svc transcript_text video_id rest fs1
        { fs := r.fs, calls := req :: r.calls,
          out := ["**User:** " ++ user_input, "**Assistant:** " ++ summary,
                  "Summary saved to " ++ mdPath video_id] ++ r.out,
          exit := r.exit }

/-- Observable result of a whole run of `main`: final filesystem, chat
requests issued, identifiers for which a transcript fetch was attempted,
printed lines, and the exit reason. -/
structure MainResult where
  fs : FS
  calls : List ChatRequest
  fetched : List String
  out : List String
  exit : ExitPath
deriving DecidableEq

/-- Embedding of `main` (source lines 110-152; named `main_run` because Lean reserves `main` for an IO entry point). The in-memory `session`
dictionary is always empty at process start, so the resume branch is dead
code and the URL is always read from input; it is the `youtube_url`
parameter here. `if not video_id` covers both `None` and the empty
string. -/
def main_run (svc : ChatRequest → HttpResponse)
    (transcriptSvc : String → Except String (List Segment))
    (youtube_url : String) (inputs : List String) (fs : FS) : MainResult :=
  match extract_video_id youtube_url with
  | none =>
    { fs := fs, calls := [], fetched := [], out := ["Invalid YouTube URL"], exit := .invalidUrl }
  | some video_id =>
    if video_id = "" then
      { fs := fs, calls := [], fetched := [], out := ["Invalid YouTube URL"], exit := .invalidUrl }
    else
      match get_transcript transcriptSvc video_id with
      | Except.error e =>
        { fs := fs, calls := [], fetched := [video_id],
          out := ["Error fetching the transcript: " ++ e], exit := .fetchError }
      | Except.ok transcript_text =>
        let fs1 := save_transcript_as_text transcript_text video_id fs
        let r := chat_loop svc transcript_text video_id inputs fs1
        { fs := r.fs, calls := r.calls, fetched := [video_id],
          out := ("Transcript saved to " ++ txtPath video_id) :: r.out, exit := r.exit }

/-- One `**User:** u`, `**Assistant:** r` markdown block, as the spec
describes it. -/
def turnBlock (user_input summary : String) : String :=
  "**User:** " ++ user_input ++ "\n\n**Assistant:** " ++ summary ++ "\n\n"

/-- Sequence of conversation appends: one `save_summary_as_markdown` call
per (user input, reply) pair, in order, exactly as the interactive loop
performs them. -/
def appendTurns (video_id : String) (pairs : List (String × String)) (fs : FS) : FS :=
  pairs.foldl (fun acc p => save_summary_as_markdown p.1 p.2 video_id acc) fs

/-- Concatenation of the markdown blocks of a list of turns, in order. -/
def concatBlocks : List (String × String) → String
  | [] => ""
  | p :: rest => turnBlock p.1 p.2 ++ concatBlocks rest

/-- The empty filesystem: a fresh working directory. -/
def emptyFS : FS := { dirs := [], files := [] }

/-! ### Lemmas about the regex search -/

theorem vMatchAt_some_elim {l w : List Char} (h : vMatchAt l = some w) :
    ∃ d t, l = 'v' :: '=' :: d :: t ∧ d ≠ '&' ∧
      w = (d :: t).takeWhile (fun c => c != '&') := by
  match l with
  | [] => simp [vMatchAt] at h
  | [a] => simp [vMatchAt] at h
  | [a, b] => simp [vMatchAt] at h
  | a :: b :: d :: t =>
    by_cases hc : a = 'v' ∧ b = '=' ∧ d ≠ '&'
    · rw [vMatchAt, if_pos hc] at h
      exact ⟨d, t, by rw [hc.1, hc.2.1], hc.2.2, (Option.some.inj h).symm⟩
    · rw [vMatchAt, if_neg hc] at h
      exact absurd h (by simp)

theorem vMatchAt_none_elim {l : List Char} (h : vMatchAt l = none) :
    ¬ vMatchPos l 0 := by
  rintro ⟨d, t, hdrop, hd⟩
  rw [List.drop_zero] at hdrop
  subst hdrop
  rw [vMatchAt, if_pos ⟨rfl, rfl, hd⟩] at h
  exact absurd h (by simp)

theorem vMatchPos_cons_succ {c : Char} {rest : List Char} {i : Nat} :
    vMatchPos (c :: rest) (i + 1) ↔ vMatchPos rest i := by
  unfold vMatchPos
  rw [List.drop_succ_cons]

theorem reSearchV_some : ∀ (l w : List Char), reSearchV l = some w →
    ∃ i, vMatchPos l i ∧ (∀ j, vMatchPos l j → i ≤ j) ∧
      w = (l.drop (i + 2)).takeWhile (fun c => c != '&') := by
  intro l
  induction l with
  | nil => intro w h; simp [reSearchV] at h
  | cons c rest ih =>
    intro w h
    unfold reSearchV at h
    cases hm : vMatchAt (c :: rest) with
    | some v =>
      rw [hm] at h
      obtain ⟨d, t, hl, hd, hw⟩ := vMatchAt_some_elim hm
      refine ⟨0, ⟨d, t, by rw [List.drop_zero]; exact hl, hd⟩, fun j _ => Nat.zero_le j, ?_⟩
      have h2 : (c :: rest).drop 2 = d :: t := by rw [hl]; rfl
      rw [h2, ← hw]
      exact (Option.some.inj h).symm
    | none =>
      rw [hm] at h
      obtain ⟨i, hpos, hmin, hw⟩ := ih w h
      refine ⟨i + 1, vMatchPos_cons_succ.mpr hpos, ?_, ?_⟩
      · intro j hj
        cases j with
        | zero => exact absurd hj (vMatchAt_none_elim hm)
        | succ j' => exact Nat.succ_le_succ (hmin j' (vMatchPos_cons_succ.mp hj))
      · exact hw

theorem reSearchV_none_iff : ∀ (l : List Char),
    reSearchV l = none ↔ ∀ i, ¬ vMatchPos l i := by
  intro l
  induction l with
  | nil =>
    constructor
    · rintro _ i ⟨d, t, hdrop, _⟩
      simp at hdrop
    · intro _; rfl
  | cons c rest ih =>
    constructor
    · intro h i
      unfold reSearchV at h
      cases hm : vMatchAt (c :: rest) with
      | some v => rw [hm] at h; exact absurd h (by simp)
      | none =>
        rw [hm] at h
        cases i with
        | zero => exact vMatchAt_none_elim hm
        | succ i' => exact fun hpos => (ih.mp h) i' (vMatchPos_cons_succ.mp hpos)
    · intro hall
      unfold reSearchV
      cases hm : vMatchAt (c :: rest) with
      | some v =>
        obtain ⟨d, t, hl, hd, _⟩ := vMatchAt_some_elim hm
        exact absurd ⟨d, t, by rw [List.drop_zero]; exact hl, hd⟩ (hall 0)
      | none =>
        exact ih.mpr (fun i hpos => hall (i + 1) (vMatchPos_cons_succ.mpr hpos))

theorem reSearchV_some_ne_nil : ∀ {l w : List Char}, reSearchV l = some w → w ≠ [] := by
  intro l
  induction l with
  | nil => intro w h; simp [reSearchV] at h
  | cons c rest ih =>
    intro w h
    unfold reSearchV at h
    cases hm : vMatchAt (c :: rest) with
    | some v =>
      rw [hm] at h
      obtain ⟨d, t, _, hd, hw⟩ := vMatchAt_some_elim hm
      have hdb : (d != '&') = true := by simpa using hd
      rw [List.takeWhile_cons, hdb] at hw
      rw [← Option.some.inj h, hw]
      simp
    | none =>
      rw [hm] at h
      exact ih h

theorem string_mk_eq_empty_iff (l : List Char) : String.mk l = "" ↔ l = [] := by
  constructor
  · intro h
    exact congrArg String.data h
  · intro h
    rw [h]

/-- C1 fails as stated: the regex `v=([^&]+)` matches the first occurrence
of the substring `v=`, not a query parameter named `v`. In
`https://example.com/?av=1&v=ABC` the `v` query parameter has value `ABC`,
but extraction returns `1` (from the `av` parameter); and
`https://example.com/?av=1` has no `v` query parameter at all, yet
extraction returns `1` instead of absence. -/
theorem C1_counterexample :
    extract_video_id "https://example.com/?av=1&v=ABC" = some "1" ∧
    ¬ (extract_video_id "https://example.com/?av=1&v=ABC" = some "ABC") ∧
    extract_video_id "https://example.com/?av=1" = some "1" ∧
    ¬ (extract_video_id "https://example.com/?av=1" = none) := by
  refine ⟨by decide, by decide, by decide, by decide⟩

/-- C1 amended: `extract_video_id` returns absence exactly when no position
of the URL starts with `v=` followed by a non-`&` character, and on success
it returns the value starting just after the leftmost such occurrence of
`v=`, running until the next `&` or the end of the string. -/
theorem C1_amended_extract_video_id (url : String) :
    (extract_video_id url = none ↔ ∀ i, ¬ vMatchPos url.data i) ∧
    (∀ w, extract_video_id url = some w →
      ∃ i, vMatchPos url.data i ∧ (∀ j, vMatchPos url.data j → i ≤ j) ∧
        w.data = (url.data.drop (i + 2)).takeWhile (fun c => c != '&')) := by
  constructor
  · unfold extract_video_id
    rw [Option.map_eq_none']
    exact reSearchV_none_iff url.data
  · intro w h
    unfold extract_video_id at h
    obtain ⟨lw, hlw, hmk⟩ := Option.map_eq_some'.mp h
    obtain ⟨i, hpos, hmin, hw⟩ := reSearchV_some _ _ hlw
    refine ⟨i, hpos, hmin, ?_⟩
    rw [← hmk]
    exact hw

/-- Witness for the amended C1 at a concrete URL. -/
theorem C1_amended_witness :
    ∃ i, vMatchPos ("watch?v=AB&x".data) i ∧
      (∀ j, vMatchPos ("watch?v=AB&x".data) j → i ≤ j) ∧
      ("AB" : String).data = (("watch?v=AB&x".data).drop (i + 2)).takeWhile (fun c => c != '&') :=
  (C1_amended_extract_video_id "watch?v=AB&x").2 "AB" (by decide)


/-- C8: a successfully extracted video identifier is never the empty
string, and when extraction returns absence `main` prints an error and
terminates with the filesystem untouched, no transcript fetch attempted and
no chat call issued. -/
theorem C8_nonempty_id_and_abort :
    (∀ url w, extract_video_id url = some w → w ≠ "") ∧
    (∀ svc transcriptSvc url inputs fs, extract_video_id url = none →
      main_run svc transcriptSvc url inputs fs =
        { fs := fs, calls := [], fetched := [], out := ["Invalid YouTube URL"],
          exit := ExitPath.invalidUrl }) := by
  constructor
  · intro url w h hcon
    unfold extract_video_id at h
    obtain ⟨lw, hlw, hmk⟩ := Option.map_eq_some'.mp h
    exact reSearchV_some_ne_nil hlw ((string_mk_eq_empty_iff lw).mp (hcon ▸ hmk))
  · intro svc transcriptSvc url inputs fs h
    unfold main_run
    rw [h]

/-- Witness for C8 at concrete URLs. -/
theorem C8_witness :
    (("ABC123" : String) ≠ "") ∧
    main_run (fun _ => { status := 200, choices := [] })
        (fun _ => Except.error "no captions") "https://example.com/no-param" ["hello"] emptyFS =
      { fs := emptyFS, calls := [], fetched := [], out := ["Invalid YouTube URL"],
        exit := ExitPath.invalidUrl } :=
  ⟨C8_nonempty_id_and_abort.1 "https://www.youtube.com/watch?v=ABC123" "ABC123" (by decide),
   C8_nonempty_id_and_abort.2 (fun _ => { status := 200, choices := [] })
     (fun _ => Except.error "no captions") "https://example.com/no-param" ["hello"] emptyFS
     (by decide)⟩

/-! ### Lemmas about the filesystem operations -/

theorem readFile_create_directory (v : String) (fs : FS) (p : String) :
    readFile (create_directory v fs) p = readFile fs p := by
  unfold create_directory readFile
  split <;> rfl

theorem readFile_writeFileFS_self (fs : FS) (p c : String) :
    readFile (writeFileFS fs p c) p = some c := by
  unfold readFile writeFileFS
  simp [List.lookup]

theorem readFile_save_summary (u s v : String) (fs : FS) :
    readFile (save_summary_as_markdown u s v fs) (mdPath v) =
      some ((readFile fs (mdPath v)).getD "" ++ turnBlock u s) := by
  unfold save_summary_as_markdown appendFileFS turnBlock
  rw [readFile_writeFileFS_self, readFile_create_directory]

theorem writeFileFS_dirs (fs : FS) (p c : String) :
    (writeFileFS fs p c).dirs = fs.dirs := rfl

theorem create_directory_contains (v : String) (fs : FS) :
    (create_directory v fs).dirs.contains v = true := by
  unfold create_directory
  split
  · next h => exact h
  · simp

theorem create_directory_of_contains (v : String) (fs : FS)
    (h : fs.dirs.contains v = true) : create_directory v fs = fs := by
  unfold create_directory
  rw [h]
  rfl

theorem filter_key_idem (l : List (String × String)) (p : String) :
    (l.filter (fun e => e.1 != p)).filter (fun e => e.1 != p) =
      l.filter (fun e => e.1 != p) := by
  induction l with
  | nil => rfl
  | cons e tl ih =>
    by_cases h : (e.1 != p) = true
    · simp [List.filter_cons, h, ih]
    · rw [Bool.not_eq_true] at h
      simp [List.filter_cons, h, ih]

theorem writeFileFS_writeFileFS (fs : FS) (p c : String) :
    writeFileFS (writeFileFS fs p c) p c = writeFileFS fs p c := by
  unfold writeFileFS
  simp [List.filter_cons, filter_key_idem]

/-- C7: writing the transcript leaves `<id>/<id>_transcript.txt` holding
exactly the transcript string, and the write is idempotent: running it a
second time leaves the whole filesystem state unchanged. -/
theorem C7_save_transcript_idempotent (t v : String) (fs : FS) :
    readFile (save_transcript_as_text t v fs) (txtPath v) = some t ∧
    save_transcript_as_text t v (save_transcript_as_text t v fs) =
      save_transcript_as_text t v fs := by
  constructor
  · unfold save_transcript_as_text
    rw [readFile_writeFileFS_self]
  · unfold save_transcript_as_text
    have h1 : create_directory v (writeFileFS (create_directory v fs) (txtPath v) t) =
        writeFileFS (create_directory v fs) (txtPath v) t := by
      apply create_directory_of_contains
      rw [writeFileFS_dirs]
      exact create_directory_contains v fs
    rw [h1, writeFileFS_writeFileFS]

theorem appendTurns_nil (v : String) (fs : FS) : appendTurns v [] fs = fs := rfl

theorem appendTurns_cons (v : String) (p : String × String)
    (rest : List (String × String)) (fs : FS) :
    appendTurns v (p :: rest) fs =
      appendTurns v rest (save_summary_as_markdown p.1 p.2 v fs) := rfl

theorem string_append_empty (s : String) : s ++ "" = s := by
  cases s with
  | mk l => show String.mk (l ++ []) = String.mk l
            rw [List.append_nil]

theorem appendTurns_content (v : String) : ∀ (pairs : List (String × String)) (fs : FS),
    (readFile (appendTurns v pairs fs) (mdPath v)).getD "" =
      (readFile fs (mdPath v)).getD "" ++ concatBlocks pairs := by
  intro pairs
  induction pairs with
  | nil =>
    intro fs
    rw [appendTurns_nil]
    show _ = _ ++ concatBlocks []
    rw [concatBlocks, string_append_empty]
  | cons p rest ih =>
    intro fs
    rw [appendTurns_cons, ih, readFile_save_summary]
    show (readFile fs (mdPath v)).getD "" ++ turnBlock p.1 p.2 ++ concatBlocks rest = _
    rw [concatBlocks, String.append_assoc]

theorem appendTurns_isSome (v : String) : ∀ (pairs : List (String × String)) (fs : FS),
    (readFile fs (mdPath v)).isSome = true →
    (readFile (appendTurns v pairs fs) (mdPath v)).isSome = true := by
  intro pairs
  induction pairs with
  | nil => intro fs h; exact h
  | cons p rest ih =>
    intro fs _
    rw [appendTurns_cons]
    exact ih _ (by rw [readFile_save_summary]; rfl)

/-- C2: iterating the markdown append over a list of (user input, reply)
turns appends exactly one block per turn, in order: the conversation-file
content grows by the concatenation of the blocks, and after at least one
turn the file exists. -/
theorem C2_markdown_blocks (v : String) (pairs : List (String × String)) (fs : FS) :
    (readFile (appendTurns v pairs fs) (mdPath v)).getD "" =
      (readFile fs (mdPath v)).getD "" ++ concatBlocks pairs ∧
    (pairs ≠ [] → (readFile (appendTurns v pairs fs) (mdPath v)).isSome = true) := by
  constructor
  · exact appendTurns_content v pairs fs
  · intro hne
    cases pairs with
    | nil => exact absurd rfl hne
    | cons p rest =>
      rw [appendTurns_cons]
      exact appendTurns_isSome v rest _ (by rw [readFile_save_summary]; rfl)

/-- Witness for C2 at two concrete turns from an empty filesystem. -/
theorem C2_witness :
    (readFile (appendTurns "X" [("a", "b"), ("c", "d")] emptyFS) (mdPath "X")).getD "" =
      (readFile emptyFS (mdPath "X")).getD "" ++ concatBlocks [("a", "b"), ("c", "d")] ∧
    (readFile (appendTurns "X" [("a", "b"), ("c", "d")] emptyFS) (mdPath "X")).isSome = true :=
  ⟨(C2_markdown_blocks "X" [("a", "b"), ("c", "d")] emptyFS).1,
   (C2_markdown_blocks "X" [("a", "b"), ("c", "d")] emptyFS).2 (by decide)⟩

/-! ### Lemmas about the chat client and the interactive loop -/

theorem get_summary_http_error (svc : ChatRequest → HttpResponse) (t : String)
    (p : Option String)
    (h : 400 ≤ (svc (get_summary_request t p)).status ∧
         (svc (get_summary_request t p)).status < 600) :
    get_summary svc t p =
      Except.error ("HTTP status " ++ toString (svc (get_summary_request t p)).status) := by
  unfold get_summary
  rw [if_pos h]

theorem chat_loop_nil (svc : ChatRequest → HttpResponse) (t vid : String) (fs : FS) :
    chat_loop svc t vid [] fs =
      { fs := fs, calls := [], out := [], exit := ExitPath.inputExhausted } := rfl

theorem chat_loop_sentinel (svc : ChatRequest → HttpResponse) (t vid line : String)
    (rest : List String) (fs : FS)
    (h : (["exit", "quit"].contains (pyLower (pyStrip line))) = true) :
    chat_loop svc t vid (line :: rest) fs =
      { fs := fs, calls := [], out := ["Goodbye!"], exit := ExitPath.sentinelExit } := by
  simp only [chat_loop]
  rw [h]
  rfl

theorem chat_loop_error (svc : ChatRequest → HttpResponse) (t vid line : String)
    (rest : List String) (fs : FS) (e : String)
    (hsent : (["exit", "quit"].contains (pyLower (pyStrip line))) = false)
    (herr : get_summary svc t (some (pyStrip line)) = Except.error e) :
    chat_loop svc t vid (line :: rest) fs =
      { fs := fs, calls := [get_summary_request t (some (pyStrip line))],
        out := ["Error generating summary: " ++ e], exit := ExitPath.chatError } := by
  simp only [chat_loop]
  rw [hsent, herr]
  rfl

theorem chat_loop_ok (svc : ChatRequest → HttpResponse) (t vid line : String)
    (rest : List String) (fs : FS) (r : String)
    (hsent : (["exit", "quit"].contains (pyLower (pyStrip line))) = false)
    (hok : get_summary svc t (some (pyStrip line)) = Except.ok r) :
    chat_loop svc t vid (line :: rest) fs =
      { fs := (chat_loop svc t vid rest (save_summary_as_markdown (pyStrip line) r vid fs)).fs,
        calls := get_summary_request t (some (pyStrip line)) ::
          (chat_loop svc t vid rest (save_summary_as_markdown (pyStrip line) r vid fs)).calls,
        out := ["**User:** " ++ pyStrip line, "**Assistant:** " ++ r,
                "Summary saved to " ++ mdPath vid] ++
          (chat_loop svc t vid rest (save_summary_as_markdown (pyStrip line) r vid fs)).out,
        exit := (chat_loop svc t vid rest (save_summary_as_markdown (pyStrip line) r vid fs)).exit } := by
  simp only [chat_loop]
  rw [hsent, hok]
  rfl

/-- C3 fails as stated for a supplied empty prompt: Python truthiness makes
`get_summary` substitute the default instruction for the empty string as
well, so at transcript `"T"` and supplied prompt `""` the sole message
content is not the claimed `"" ++ "\n\n" ++ "T"`. -/
theorem C3_counterexample :
    ¬ ((get_summary_request "T" (some "")).messages =
        [{ role := "user", content := "" ++ "\n\n" ++ "T" }]) := by
  decide

/-- C3 amended: the request holds a single user message whose content is
the prompt, two newlines, then the transcript, where the default
instruction is substituted when no prompt is supplied or the supplied
prompt is the empty string; the model is the fixed identifier; and on a
successful response the first choice's message content is returned with
surrounding whitespace stripped. -/
theorem C3_amended_get_summary (svc : ChatRequest → HttpResponse) (t : String)
    (p : Option String) (st : Nat) (c : Choice) (cs : List Choice)
    (hresp : svc (get_summary_request t p) = { status := st, choices := c :: cs })
    (hst : ¬ (400 ≤ st ∧ st < 600)) :
    (get_summary_request t p).model = "llama-3.1-8b-instant" ∧
    (get_summary_request t p).messages =
      [{ role := "user",
         content := (match p with
                     | none => DEFAULT_PROMPT
                     | some s => if s = "" then DEFAULT_PROMPT else s) ++ "\n\n" ++ t }] ∧
    get_summary svc t p = Except.ok (pyStrip c.message.content) := by
  refine ⟨rfl, ?_, ?_⟩
  · cases p with
    | none => rfl
    | some s =>
      by_cases h : s = ""
      · simp [get_summary_request, promptOrDefault, h]
      · simp [get_summary_request, promptOrDefault, h]
  · unfold get_summary
    rw [hresp]
    rw [if_neg hst]

/-- Witness for the amended C3 at a concrete service, transcript and
prompt. -/
theorem C3_amended_witness :
    (get_summary_request "T" (some "ask")).model = "llama-3.1-8b-instant" ∧
    (get_summary_request "T" (some "ask")).messages =
      [{ role := "user", content := "ask" ++ "\n\n" ++ "T" }] ∧
    get_summary
        (fun _ => { status := 200,
                    choices := [{ message := { role := "assistant", content := "  hi  " } }] })
        "T" (some "ask") = Except.ok (pyStrip "  hi  ") := by
  have h := C3_amended_get_summary
    (fun _ => { status := 200,
                choices := [{ message := { role := "assistant", content := "  hi  " } }] })
    "T" (some "ask") 200 { message := { role := "assistant", content := "  hi  " } } []
    rfl (by decide)
  exact ⟨h.1, h.2.1, h.2.2⟩

/-- C4: on a successful transcript fetch the result is the segment texts
joined with a single space in their original order; the join places one
space between each pair of consecutive texts, and on the spec's example
segments it yields `"Hello world"`. -/
theorem C4_get_transcript_join (transcriptSvc : String → Except String (List Segment))
    (vid : String) (segs : List Segment)
    (h : transcriptSvc vid = Except.ok segs) :
    get_transcript transcriptSvc vid = Except.ok (joinWith " " (segs.map Segment.text)) ∧
    (∀ x y l, joinWith " " (x :: y :: l) = x ++ " " ++ joinWith " " (y :: l)) ∧
    get_transcript (fun _ => Except.ok [{ text := "Hello" }, { text := "world" }]) vid =
      Except.ok "Hello world" := by
  refine ⟨?_, ?_, ?_⟩
  · unfold get_transcript
    rw [h]
    rfl
  · intro x y l
    rfl
  · rfl

/-- Witness for C4 at a concrete transcript service. -/
theorem C4_witness :
    get_transcript (fun _ => Except.ok [{ text := "Hello" }, { text := "world" }]) "vid0" =
      Except.ok (joinWith " "
        (([{ text := "Hello" }, { text := "world" }] : List Segment).map Segment.text)) :=
  (C4_get_transcript_join (fun _ => Except.ok [{ text := "Hello" }, { text := "world" }])
    "vid0" [{ text := "Hello" }, { text := "world" }] rfl).1

/-- C5: when the chat service answers a non-success (4xx or 5xx) status on
a non-sentinel turn, the loop stops at that turn with the filesystem
unchanged — no markdown block is appended — and no further input is
consumed. -/
theorem C5_http_error_aborts (svc : ChatRequest → HttpResponse) (t vid line : String)
    (rest : List String) (fs : FS)
    (hsent : (["exit", "quit"].contains (pyLower (pyStrip line))) = false)
    (hst : 400 ≤ (svc (get_summary_request t (some (pyStrip line)))).status ∧
           (svc (get_summary_request t (some (pyStrip line)))).status < 600) :
    chat_loop svc t vid (line :: rest) fs =
      { fs := fs, calls := [get_summary_request t (some (pyStrip line))],
        out := ["Error generating summary: " ++
                ("HTTP status " ++
                 toString (svc (get_summary_request t (some (pyStrip line)))).status)],
        exit := ExitPath.chatError } :=
  chat_loop_error svc t vid line rest fs _ hsent (get_summary_http_error svc t _ hst)

/-- Witness for C5: a 500-status service aborts the loop without touching
the filesystem and without consuming the remaining input. -/
theorem C5_witness :
    chat_loop (fun _ => { status := 500, choices := [] }) "T" "vid" ["tell me", "more"] emptyFS =
      { fs := emptyFS, calls := [get_summary_request "T" (some (pyStrip "tell me"))],
        out := ["Error generating summary: " ++ ("HTTP status " ++ toString (500 : Nat))],
        exit := ExitPath.chatError } :=
  C5_http_error_aborts (fun _ => { status := 500, choices := [] }) "T" "vid" "tell me"
    ["more"] emptyFS (by decide) (by decide)

/-- C6: an input line whose stripped text case-insensitively equals `exit`
or `quit` ends the loop at once: no chat request is issued, nothing is
appended to the filesystem, and the loop reports the sentinel exit. -/
theorem C6_sentinel_ends_loop (svc : ChatRequest → HttpResponse) (t vid line : String)
    (rest : List String) (fs : FS)
    (h : (["exit", "quit"].contains (pyLower (pyStrip line))) = true) :
    chat_loop svc t vid (line :: rest) fs =
      { fs := fs, calls := [], out := ["Goodbye!"], exit := ExitPath.sentinelExit } :=
  chat_loop_sentinel svc t vid line rest fs h

/-- Witness for C6 at each of the four sentinel spellings of the claim. -/
theorem C6_witness :
    chat_loop (fun _ => { status := 200, choices := [] }) "T" "vid" ["exit"] emptyFS =
      { fs := emptyFS, calls := [], out := ["Goodbye!"], exit := ExitPath.sentinelExit } ∧
    chat_loop (fun _ => { status := 200, choices := [] }) "T" "vid" ["EXIT"] emptyFS =
      { fs := emptyFS, calls := [], out := ["Goodbye!"], exit := ExitPath.sentinelExit } ∧
    chat_loop (fun _ => { status := 200, choices := [] }) "T" "vid" ["quit"] emptyFS =
      { fs := emptyFS, calls := [], out := ["Goodbye!"], exit := ExitPath.sentinelExit } ∧
    chat_loop (fun _ => { status := 200, choices := [] }) "T" "vid" ["Quit"] emptyFS =
      { fs := emptyFS, calls := [], out := ["Goodbye!"], exit := ExitPath.sentinelExit } :=
  ⟨C6_sentinel_ends_loop _ "T" "vid" "exit" [] emptyFS (by decide),
   C6_sentinel_ends_loop _ "T" "vid" "EXIT" [] emptyFS (by decide),
   C6_sentinel_ends_loop _ "T" "vid" "quit" [] emptyFS (by decide),
   C6_sentinel_ends_loop _ "T" "vid" "Quit" [] emptyFS (by decide)⟩

/-- C9: a line that strips to the empty string is not a sentinel — the loop
still issues a chat call — and because Python truthiness treats the empty
prompt like an absent one, that call carries the default instruction: the
request equals the no-prompt request. -/
theorem C9_blank_input_default (svc : ChatRequest → HttpResponse) (t vid line : String)
    (rest : List String) (fs : FS) (h : pyStrip line = "") :
    (["exit", "quit"].contains (pyLower (pyStrip line)) = false) ∧
    get_summary_request t (some "") = get_summary_request t none ∧
    (chat_loop svc t vid (line :: rest) fs).calls.head? =
      some (get_summary_request t none) := by
  have hsent : (["exit", "quit"].contains (pyLower (pyStrip line))) = false := by
    rw [h]
    decide
  have heq : get_summary_request t (some "") = get_summary_request t none := rfl
  refine ⟨hsent, heq, ?_⟩
  cases hg : get_summary svc t (some (pyStrip line)) with
  | error e =>
    rw [chat_loop_error svc t vid line rest fs e hsent hg]
    show some (get_summary_request t (some (pyStrip line))) = _
    rw [h, heq]
  | ok r =>
    rw [chat_loop_ok svc t vid line rest fs r hsent hg]
    show some (get_summary_request t (some (pyStrip line))) = _
    rw [h, heq]

/-- Witness for C9 at a whitespace-only input line. -/
theorem C9_witness :
    (["exit", "quit"].contains (pyLower (pyStrip "   ")) = false) ∧
    get_summary_request "T" (some "") = get_summary_request "T" none ∧
    (chat_loop (fun _ => { status := 200, choices := [] }) "T" "vid" ["   "] emptyFS).calls.head? =
      some (get_summary_request "T" none) :=
  C9_blank_input_default (fun _ => { status := 200, choices := [] }) "T" "vid" "   " []
    emptyFS (by decide)

/-- C10: every input line is stripped before use. The sentinel check
accepts surrounding whitespace (a literal `  Exit  ` line ends the loop);
on a non-sentinel line the chat request carries the stripped text, the
printed `**User:**` line shows the stripped text, and the markdown block
appended to the conversation file records the stripped text. -/
theorem C10_stripped_input_used (svc : ChatRequest → HttpResponse) (t vid line : String)
    (rest : List String) (fs : FS) (r : String)
    (hsent : (["exit", "quit"].contains (pyLower (pyStrip line))) = false)
    (hok : get_summary svc t (some (pyStrip line)) = Except.ok r) :
    chat_loop svc t vid ("  Exit  " :: rest) fs =
      { fs := fs, calls := [], out := ["Goodbye!"], exit := ExitPath.sentinelExit } ∧
    (chat_loop svc t vid (line :: rest) fs).calls.head? =
      some (get_summary_request t (some (pyStrip line))) ∧
    (chat_loop svc t vid [line] fs).out =
      ["**User:** " ++ pyStrip line, "**Assistant:** " ++ r, "Summary saved to " ++ mdPath vid] ∧
    readFile (chat_loop svc t vid [line] fs).fs (mdPath vid) =
      some ((readFile fs (mdPath vid)).getD "" ++ turnBlock (pyStrip line) r) := by
  refine ⟨chat_loop_sentinel svc t vid "  Exit  " rest fs (by decide), ?_, ?_, ?_⟩
  · rw [chat_loop_ok svc t vid line rest fs r hsent hok]
    rfl
  · rw [chat_loop_ok svc t vid line [] fs r hsent hok, chat_loop_nil]
    simp
  · rw [chat_loop_ok svc t vid line [] fs r hsent hok, chat_loop_nil]
    exact readFile_save_summary (pyStrip line) r vid fs

/-- Witness for C10 at concrete inputs. -/
theorem C10_witness :
    chat_loop
        (fun _ => { status := 200,
                    choices := [{ message := { role := "assistant", content := " OK " } }] })
        "T" "vid" ("  Exit  " :: ([] : List String)) emptyFS =
      { fs := emptyFS, calls := [], out := ["Goodbye!"], exit := ExitPath.sentinelExit } ∧
    (chat_loop
        (fun _ => { status := 200,
                    choices := [{ message := { role := "assistant", content := " OK " } }] })
        "T" "vid" ("  hi  " :: ([] : List String)) emptyFS).calls.head? =
      some (get_summary_request "T" (some (pyStrip "  hi  "))) ∧
    (chat_loop
        (fun _ => { status := 200,
                    choices := [{ message := { role := "assistant", content := " OK " } }] })
        "T" "vid" ["  hi  "] emptyFS).out =
      ["**User:** " ++ pyStrip "  hi  ", "**Assistant:** " ++ "OK",
       "Summary saved to " ++ mdPath "vid"] ∧
    readFile
        (chat_loop
          (fun _ => { status := 200,
                      choices := [{ message := { role := "assistant", content := " OK " } }] })
          "T" "vid" ["  hi  "] emptyFS).fs (mdPath "vid") =
      some ((readFile emptyFS (mdPath "vid")).getD "" ++ turnBlock (pyStrip "  hi  ") "OK") :=
  C10_stripped_input_used
    (fun _ => { status := 200,
                choices := [{ message := { role := "assistant", content := " OK " } }] })
    "T" "vid" "  hi  " [] emptyFS "OK" (by decide) (by rfl)
